import Mathlib

/-!
# Verification of the student-records portal (`src/main2.py`)

A shallow embedding of the core of the single-file student portal:

* `StudentRecord` embeds one row of the `students` table (all 20 columns of
  `DESIRED_SCHEMA` are SQLite `TEXT`, so every field is a `String`).
* The record store is a `List StudentRecord` in storage (rowid / insertion)
  order; SQL statements on the table become list operations.
* The CSV layer of `export_all_users_csv` / `import_users_from_csv` is
  embedded at the tabular level: a CSV document is its header row plus its
  list of data rows (`CsvFile`), abstracting the byte-level comma/quote
  encoding of Python's `csv` module, which the claims do not touch.
  `csv.DictReader`'s `None` rest-value for short rows (an SQL NULL) is
  modelled as the empty string.
* `ensure_table_and_columns` is embedded over `LiveTable`, an explicit model
  of the live SQLite table structure (existence flag, ordered column list,
  rows as cell lists parallel to the columns; `none` cells are SQL NULLs).
* The login flow's session state becomes the explicit `AuthState`; the two
  `random.randint(2, 12)` draws used to regenerate the captcha are supplied
  to `attempt_login` as explicit oracle inputs `freshA`, `freshB`.
* The PDF helper `draw_image_in_box` is embedded over `ℚ` (Python floats
  modelled as exact rationals) and returns the drawing command it issues.
* Regex/character-class helpers are modelled over the ASCII alphabet the
  patterns name (`[a-z]`, `[A-Z]`, `\d` as `0`-`9`, the literal symbol set).
-/

namespace StudentPortal

/-- One row of the `students` table: the 20 `TEXT` columns of
`DESIRED_SCHEMA` (src/main2.py lines 25-46), in declaration order. -/
structure StudentRecord where
  uname : String
  pwd : String
  name : String
  father : String
  mother : String
  gender : String
  address : String
  city : String
  state : String
  phone : String
  rrn : String
  enroll : String
  degree : String
  branch : String
  sem : String
  scheme : String
  marks_10th : String
  marks_12th : String
  photo_path : String
  sign_path : String
deriving DecidableEq, Repr

/-- The keys of `DESIRED_SCHEMA`, in dict order (src/main2.py lines 25-46). -/
def schemaKeys : List String :=
  ["uname", "pwd", "name", "father", "mother", "gender", "address", "city",
   "state", "phone", "rrn", "enroll", "degree", "branch", "sem", "scheme",
   "marks_10th", "marks_12th", "photo_path", "sign_path"]

/-- Errors of the embedded store operations: `duplicateKey` is the
`sqlite3.IntegrityError` raised by an `INSERT` that violates the
`uname` primary key; `forbidden` is the refusal of an admin-protected
action (src/main2.py lines 587-588, 600-601). -/
inductive StoreError where
  | duplicateKey
  | forbidden
deriving DecidableEq, Repr

/-- `INSERT INTO students (...) VALUES (...)` (src/main2.py lines 232-243):
fails with `IntegrityError` when a row with the same `uname` primary key
already exists, otherwise appends the new row in rowid order. -/
def insertRecord (store : List StudentRecord) (r : StudentRecord) :
    Except StoreError (List StudentRecord) :=
  if store.any (fun s => s.uname == r.uname) then
    Except.error StoreError.duplicateKey
  else
    Except.ok (store ++ [r])

/-- The table state after attempting an insert: a failed `INSERT` leaves the
table as it was (src/main2.py lines 241-246: the `except` branch only shows
an error message). -/
def insertPost (store : List StudentRecord) (r : StudentRecord) :
    List StudentRecord :=
  match insertRecord store r with
  | Except.ok store2 => store2
  | Except.error _ => store

/-- `SELECT * FROM students WHERE uname=? AND pwd=?` followed by
`fetchone()` (src/main2.py lines 279-280): the first row, in storage order,
whose `uname` and `pwd` columns both equal the given strings. -/
def findByCredentials (store : List StudentRecord) (u p : String) :
    Option StudentRecord :=
  store.find? (fun s => s.uname == u && s.pwd == p)

/-- `DELETE FROM students WHERE uname=?` guarded by the admin check
(src/main2.py lines 587-592); the surrounding `if del_user:` presence check
belongs to the input-collection UI layer. -/
def deleteByUsername (store : List StudentRecord) (u : String) :
    Except StoreError (List StudentRecord) :=
  if u == "admin" then
    Except.error StoreError.forbidden
  else
    Except.ok (store.filter (fun s => s.uname != u))

/-- `UPDATE students SET pwd=? WHERE uname=?` guarded by the admin check
(src/main2.py lines 600-605); the surrounding `if rst_user and new_pwd:`
presence check belongs to the input-collection UI layer. -/
def updatePassword (store : List StudentRecord) (u newPwd : String) :
    Except StoreError (List StudentRecord) :=
  if u == "admin" then
    Except.error StoreError.forbidden
  else
    Except.ok (store.map (fun s => if s.uname == u then { s with pwd := newPwd } else s))

/-- A record whose fields are all the empty string; concrete test records
are built from it. -/
def blankRecord : StudentRecord :=
  ⟨"", "", "", "", "", "", "", "", "", "", "", "", "", "", "", "", "", "", "", ""⟩

/-- Concrete sample record for witnesses. -/
def recAlice : StudentRecord := { blankRecord with uname := "alice", pwd := "Abcd123@" }

/-- Concrete sample record for witnesses. -/
def recBob : StudentRecord := { blankRecord with uname := "bob", pwd := "Bcde456#" }

/-- Concrete sample record for witnesses: same username as `recAlice`,
different password. -/
def recAlice2 : StudentRecord := { blankRecord with uname := "alice", pwd := "Zzzz999!" }

end StudentPortal

namespace StudentPortal

/-- After appending a row whose username is fresh, credential lookup by the
new row's username and password finds exactly the new row. -/
lemma findByCredentials_append_fresh
    (store : List StudentRecord) (r : StudentRecord)
    (hfresh : ∀ s ∈ store, s.uname ≠ r.uname) :
    findByCredentials (store ++ [r]) r.uname r.pwd = some r := by
  induction store with
  | nil => simp [findByCredentials, List.find?]
  | cons hd tl ih =>
      have hhd : hd.uname ≠ r.uname := hfresh hd (List.mem_cons_self hd tl)
      have htl : ∀ s ∈ tl, s.uname ≠ r.uname := fun s hs =>
        hfresh s (List.mem_cons_of_mem hd hs)
      have hp : (hd.uname == r.uname && hd.pwd == r.pwd) = false := by
        simp [hhd]
      unfold findByCredentials at ih ⊢
      rw [List.cons_append, List.find?_cons_of_neg _ (by simp [hhd])]
      exact ih htl

/-- **C1.** Inserting a record whose username is fresh succeeds, and looking
it up by its own username and password returns exactly the inserted record;
`findByCredentials` matches by exact string equality on both fields and
returns `none` precisely when no stored record matches both. -/
theorem insert_then_findByCredentials
    (store : List StudentRecord) (r : StudentRecord)
    (hfresh : ∀ s ∈ store, s.uname ≠ r.uname) :
    (∃ store2, insertRecord store r = Except.ok store2 ∧
      findByCredentials store2 r.uname r.pwd = some r) ∧
    (∀ u p, findByCredentials store u p = none ↔
      ∀ s ∈ store, ¬(s.uname = u ∧ s.pwd = p)) ∧
    (∀ u p s, findByCredentials store u p = some s →
      s.uname = u ∧ s.pwd = p ∧ s ∈ store) := by
  refine ⟨?_, ?_, ?_⟩
  · have hany : store.any (fun s => s.uname == r.uname) = false := by
      simp only [List.any_eq_false, beq_iff_eq]
      intro s hs
      exact hfresh s hs
    exact ⟨store ++ [r], by simp [insertRecord, hany],
      findByCredentials_append_fresh store r hfresh⟩
  · intro u p
    simp [findByCredentials, List.find?_eq_none, not_and]
  · intro u p s hfind
    have hmem := List.mem_of_find?_eq_some hfind
    have hpred := List.find?_some hfind
    simp only [Bool.and_eq_true, beq_iff_eq] at hpred
    exact ⟨hpred.1, hpred.2, hmem⟩

/-- Witness for C1 at a concrete store and record. -/
theorem insert_then_findByCredentials_witness :
    (∀ s ∈ [recBob], s.uname ≠ recAlice.uname) ∧
    (∃ store2,
      insertRecord [recBob] recAlice = Except.ok store2 ∧
      findByCredentials store2 recAlice.uname recAlice.pwd = some recAlice) := by
  refine ⟨by decide, ?_⟩
  exact (insert_then_findByCredentials [recBob] recAlice (by decide)).1

/-- **C2.** Inserting a record whose username already exists fails with
`duplicateKey`, and the table afterwards is exactly the table before:
same row count, every record unchanged. -/
theorem insert_duplicate_fails
    (store : List StudentRecord) (r : StudentRecord)
    (hdup : ∃ s ∈ store, s.uname = r.uname) :
    insertRecord store r = Except.error StoreError.duplicateKey ∧
    insertPost store r = store ∧
    (insertPost store r).length = store.length := by
  have hany : store.any (fun s => s.uname == r.uname) = true := by
    simp only [List.any_eq_true, beq_iff_eq]
    exact hdup
  have herr : insertRecord store r = Except.error StoreError.duplicateKey := by
    simp [insertRecord, hany]
  refine ⟨herr, ?_, ?_⟩ <;> simp [insertPost, herr]

/-- Witness for C2 at a concrete store and record. -/
theorem insert_duplicate_fails_witness :
    (∃ s ∈ [recAlice], s.uname = recAlice2.uname) ∧
    insertRecord [recAlice] recAlice2 = Except.error StoreError.duplicateKey ∧
    insertPost [recAlice] recAlice2 = [recAlice] := by
  have h := insert_duplicate_fails [recAlice] recAlice2 ⟨recAlice, by decide⟩
  exact ⟨⟨recAlice, by decide⟩, h.1, h.2.1⟩

/-- **C8.** The admin record is protected: deleting username `"admin"` and
resetting the password of `"admin"` both fail with `forbidden`, for every
store and every new password. Deleting any other username yields a store
containing exactly the records whose username differs (removal if present,
no-op if absent), and resetting any other username's password changes only
the `pwd` field of the records with that username, leaving every other
record and every other field unchanged (no-op if the username is absent). -/
theorem admin_record_protected (store : List StudentRecord) (u newPwd : String) :
    deleteByUsername store "admin" = Except.error StoreError.forbidden ∧
    updatePassword store "admin" newPwd = Except.error StoreError.forbidden ∧
    (u ≠ "admin" →
      ∃ st2, deleteByUsername store u = Except.ok st2 ∧
        (∀ s, s ∈ st2 ↔ s ∈ store ∧ s.uname ≠ u) ∧
        ((∀ s ∈ store, s.uname ≠ u) → st2 = store)) ∧
    (u ≠ "admin" →
      ∃ st3, updatePassword store u newPwd = Except.ok st3 ∧
        st3.length = store.length ∧
        (∀ i (h1 : i < store.length) (h2 : i < st3.length),
          (store[i].uname ≠ u → st3[i] = store[i]) ∧
          (store[i].uname = u → st3[i] = { store[i] with pwd := newPwd })) ∧
        ((∀ s ∈ store, s.uname ≠ u) → st3 = store)) := by
  refine ⟨by simp [deleteByUsername], by simp [updatePassword], ?_, ?_⟩
  · intro hu
    refine ⟨store.filter (fun s => s.uname != u), ?_, ?_, ?_⟩
    · simp [deleteByUsername, hu]
    · intro s
      simp [List.mem_filter]
    · intro hall
      exact List.filter_eq_self.mpr (fun s hs => by simp [hall s hs])
  · intro hu
    refine ⟨store.map (fun s => if s.uname == u then { s with pwd := newPwd } else s),
      ?_, by simp, ?_, ?_⟩
    · simp [updatePassword, hu]
    · intro i h1 h2
      constructor
      · intro hne
        simp [List.getElem_map, hne]
      · intro heq
        simp [List.getElem_map, heq]
    · intro hall
      have : ∀ s ∈ store,
          (if s.uname == u then { s with pwd := newPwd } else s) = s := by
        intro s hs
        simp [hall s hs]
      rw [List.map_congr_left this]
      exact List.map_id store

/-- Witness for C8 at a concrete store, username and password. -/
theorem admin_record_protected_witness :
    deleteByUsername [recAlice] "admin" = Except.error StoreError.forbidden ∧
    ("bob" : String) ≠ "admin" ∧
    (∃ st2, deleteByUsername [recAlice] "bob" = Except.ok st2 ∧
      (∀ s, s ∈ st2 ↔ s ∈ [recAlice] ∧ s.uname ≠ "bob") ∧
      ((∀ s ∈ [recAlice], s.uname ≠ "bob") → st2 = [recAlice])) ∧
    (∃ st3, updatePassword [recAlice] "bob" "Newp123!" = Except.ok st3 ∧
      st3.length = [recAlice].length) := by
  have h := admin_record_protected [recAlice] "bob" "Newp123!"
  obtain ⟨st3, hst3, hlen, -⟩ := h.2.2.2 (by decide)
  exact ⟨h.1, by decide, h.2.2.1 (by decide), st3, hst3, hlen⟩

end StudentPortal

namespace StudentPortal

/-! ## Validators (src/main2.py lines 99-112)

The regex character classes are modelled over the ASCII ranges the patterns
name. Python's `\d` additionally matches non-ASCII Unicode decimal digits;
those lie outside the alphabet exercised by this program's inputs and
claims. -/

/-- The symbol class `[@#$%^&+=!]` of the password pattern
(src/main2.py line 108). -/
def allowedSymbols : List Char := ['@', '#', '$', '%', '^', '&', '+', '=', '!']

/-- Python `re`'s `.` metacharacter (no `re.DOTALL`): any character except
the newline. -/
def regexDot (ch : Char) : Bool := ch != '\n'

/-- The anchored lookahead body `.*C`: some character satisfying `C` is
reachable after consuming zero or more non-newline characters. -/
def lookaheadDotStar (p : Char → Bool) : List Char → Bool
  | [] => false
  | ch :: rest => p ch || (regexDot ch && lookaheadDotStar p rest)

/-- `is_strong_password` (src/main2.py lines 107-108):
`re.fullmatch(r'(?=.*[a-z])(?=.*[A-Z])(?=.*\d)(?=.*[@#$%^&+=!]).{8,}', pwd)`.
The four lookaheads are checked at position 0 and the body `.{8,}` must
consume the entire string, i.e. every character is a non-newline and the
length is at least 8. -/
def is_strong_password (pwd : String) : Bool :=
  lookaheadDotStar (fun ch => ch.isLower) pwd.toList &&
  lookaheadDotStar (fun ch => ch.isUpper) pwd.toList &&
  lookaheadDotStar (fun ch => ch.isDigit) pwd.toList &&
  lookaheadDotStar (fun ch => allowedSymbols.contains ch) pwd.toList &&
  (decide (8 ≤ pwd.toList.length) && pwd.toList.all regexDot)

/-- Python `str.isdigit` restricted to ASCII: non-empty and every character
a decimal digit. -/
def py_str_isdigit (s : String) : Bool := !s.isEmpty && s.toList.all Char.isDigit

/-- `is_valid_number` (src/main2.py lines 99-100):
`bool(num) and num.isdigit() and (len(num) == length if length else True)`.
The optional `length` argument is `Option Nat` (`none` = Python `None`);
the conditional expression tests the *truthiness* of `length`, so both
`None` and `0` skip the length-equality check. -/
def is_valid_number (num : String) (length : Option Nat) : Bool :=
  !num.isEmpty && py_str_isdigit num &&
    (match length with
     | none => true
     | some 0 => true
     | some l => num.toList.length == l)

/-- A successful lookahead exhibits a character of its class somewhere in
the string. -/
lemma lookaheadDotStar_imp_any (p : Char → Bool) (s : List Char)
    (h : lookaheadDotStar p s = true) : s.any p = true := by
  induction s with
  | nil => simp [lookaheadDotStar] at h
  | cons ch rest ih =>
      simp only [lookaheadDotStar, Bool.or_eq_true, Bool.and_eq_true] at h
      rcases h with h | ⟨-, h⟩
      · simp [h]
      · simp [ih h]

/-- On newline-free strings the anchored lookahead is exactly an
existential over the characters. -/
lemma lookaheadDotStar_eq_any (p : Char → Bool) (s : List Char)
    (h : ∀ ch ∈ s, ch ≠ '\n') : lookaheadDotStar p s = s.any p := by
  induction s with
  | nil => rfl
  | cons ch rest ih =>
      have hch : regexDot ch = true := by
        simpa [regexDot] using h ch (List.mem_cons_self ch rest)
      have hrest : ∀ c ∈ rest, c ≠ '\n' := fun c hc =>
        h c (List.mem_cons_of_mem ch hc)
      simp [lookaheadDotStar, hch, ih hrest, List.any_cons]

end StudentPortal

namespace StudentPortal

/-- **C7 counterexample.** The string `"Abcd123@\n"` contains a lowercase
letter, an uppercase letter, a digit and an allowed symbol and has length
9 ≥ 8, yet `is_strong_password` returns `false`: the regex body `.{8,}`
cannot match the newline character. -/
theorem is_strong_password_newline_counterexample :
    is_strong_password "Abcd123@\n" = false ∧
    8 ≤ "Abcd123@\n".toList.length ∧
    "Abcd123@\n".toList.any (fun ch => ch.isLower) = true ∧
    "Abcd123@\n".toList.any (fun ch => ch.isUpper) = true ∧
    "Abcd123@\n".toList.any (fun ch => ch.isDigit) = true ∧
    "Abcd123@\n".toList.any (fun ch => allowedSymbols.contains ch) = true := by
  decide

/-- **C7 (amended).** `is_strong_password pwd` is `true` iff `pwd` has
length ≥ 8, contains no newline character, and contains at least one
lowercase letter, one uppercase letter, one digit and one symbol of the
fixed allowed set, in any order; in particular it accepts `"Abcd123@"` and
rejects `"abcd1234"`, `"ABCD123@"` and `"Abc1@"`. -/
theorem is_strong_password_spec :
    (∀ pwd : String,
      is_strong_password pwd = true ↔
        (8 ≤ pwd.toList.length ∧
         (∀ ch ∈ pwd.toList, ch ≠ '\n') ∧
         (∃ ch ∈ pwd.toList, ch.isLower = true) ∧
         (∃ ch ∈ pwd.toList, ch.isUpper = true) ∧
         (∃ ch ∈ pwd.toList, ch.isDigit = true) ∧
         (∃ ch ∈ pwd.toList, ch ∈ allowedSymbols))) ∧
    is_strong_password "Abcd123@" = true ∧
    is_strong_password "abcd1234" = false ∧
    is_strong_password "ABCD123@" = false ∧
    is_strong_password "Abc1@" = false := by
  refine ⟨?_, by decide, by decide, by decide, by decide⟩
  intro pwd
  constructor
  · intro h
    simp only [is_strong_password, Bool.and_eq_true, decide_eq_true_eq] at h
    obtain ⟨⟨⟨⟨hlow, hup⟩, hdig⟩, hsym⟩, hlen, hdot⟩ := h
    have hnl : ∀ ch ∈ pwd.toList, ch ≠ '\n' := by
      intro ch hch
      have := (List.all_eq_true.mp hdot) ch hch
      simpa [regexDot] using this
    refine ⟨hlen, hnl, ?_, ?_, ?_, ?_⟩
    · simpa [List.any_eq_true] using lookaheadDotStar_imp_any _ _ hlow
    · simpa [List.any_eq_true] using lookaheadDotStar_imp_any _ _ hup
    · simpa [List.any_eq_true] using lookaheadDotStar_imp_any _ _ hdig
    · have := lookaheadDotStar_imp_any _ _ hsym
      simpa [List.any_eq_true] using this
  · rintro ⟨hlen, hnl, hlow, hup, hdig, hsym⟩
    simp only [is_strong_password, Bool.and_eq_true, decide_eq_true_eq]
    have hdot : pwd.toList.all regexDot = true := by
      simp only [List.all_eq_true]
      intro ch hch
      simpa [regexDot] using hnl ch hch
    refine ⟨⟨⟨⟨?_, ?_⟩, ?_⟩, ?_⟩, hlen, hdot⟩ <;>
      rw [lookaheadDotStar_eq_any _ _ hnl] <;> simp only [List.any_eq_true]
    · exact hlow
    · exact hup
    · exact hdig
    · simpa using hsym

/-- Witness for the amended C7 statement at a concrete password. -/
theorem is_strong_password_spec_witness :
    is_strong_password "Xyzw456$" = true := by
  exact (is_strong_password_spec.1 "Xyzw456$").mpr (by decide)

/-- **C10.** For every non-empty all-digit string, passing an exact length
of `0` behaves exactly like passing no length at all: the length check is
skipped (Python's conditional tests the truthiness of `length`, and `0` is
falsy), so `is_valid_number num (some 0)` is `true` even though
`num.length ≠ 0`. -/
theorem is_valid_number_zero_length (num : String)
    (h1 : num ≠ "") (h2 : num.toList.all Char.isDigit = true) :
    is_valid_number num (some 0) = true ∧
    is_valid_number num (some 0) = is_valid_number num none ∧
    num.toList.length ≠ 0 := by
  have hne : num.isEmpty = false := by
    rw [Bool.eq_false_iff]
    intro hemp
    exact h1 ((String.isEmpty_iff num).mp hemp)
  have hlen : num.toList.length ≠ 0 := by
    intro h0
    have hnil : num.toList = [] := List.length_eq_zero.mp h0
    cases num with
    | mk data =>
        exact h1 (by simpa [String.toList] using congrArg String.mk hnil)
  have h2m : ∀ ch ∈ num.toList, ch.isDigit = true := List.all_eq_true.mp h2
  refine ⟨?_, ?_, hlen⟩
  · simp [is_valid_number, py_str_isdigit, hne, List.all_eq_true, String.toList]
    exact fun ch hch => h2m ch hch
  · simp [is_valid_number]

/-- Witness for C10 at `"123"`. -/
theorem is_valid_number_zero_length_witness :
    ("123" : String) ≠ "" ∧ "123".toList.all Char.isDigit = true ∧
    is_valid_number "123" (some 0) = true := by
  refine ⟨by decide, by decide, ?_⟩
  exact (is_valid_number_zero_length "123" (by decide) (by decide)).1

end StudentPortal

namespace StudentPortal

/-! ## Schema reconciler (src/main2.py lines 49-64) -/

/-- The live structure of the SQLite `students` table: whether the table
exists (`SELECT name FROM sqlite_master ...`), its ordered column list
(`PRAGMA table_info`), and its rows as cell lists parallel to the columns
(`none` is the SQL NULL that a column added by
`ALTER TABLE ... ADD COLUMN` holds in pre-existing rows). -/
structure LiveTable where
  tableExists : Bool
  columns : List String
  rows : List (List (Option String))
deriving DecidableEq, Repr

/-- `ensure_table_and_columns` (src/main2.py lines 49-64): when the table is
missing, `CREATE TABLE` it with exactly the `DESIRED_SCHEMA` columns in
schema order (and no rows); otherwise, for each schema key absent from the
column set fetched before the loop, `ALTER TABLE students ADD COLUMN`
appends the column, pre-existing rows receiving NULL in it. The schema keys
are pairwise distinct, so the loop over the pre-fetched `existing` set adds
exactly the filtered list below, in schema order. -/
def ensure_table_and_columns (t : LiveTable) : LiveTable :=
  if t.tableExists then
    let missing := schemaKeys.filter (fun col => !(decide (col ∈ t.columns)))
    { tableExists := true,
      columns := t.columns ++ missing,
      rows := t.rows.map (fun r => r ++ missing.map (fun _ => (none : Option String))) }
  else
    { tableExists := true, columns := schemaKeys, rows := [] }

/-- A sample live table for witnesses: two columns are missing from the
descriptor's key set. -/
def tableSample : LiveTable :=
  { tableExists := true,
    columns := ["uname", "pwd", "legacy_extra"],
    rows := [[some "admin", some "Admin@123", some "x"]] }

/-- **C5.** On every live store state the reconciler only appends columns
(the old column list is a prefix of the new one, so nothing is removed or
renamed), extends every existing row with NULL cells only (the old cell
list is a prefix, so no stored value changes), is idempotent (running it
twice equals running it once), and is a no-op when the live columns already
contain every descriptor key. -/
theorem ensure_table_and_columns_spec (t : LiveTable)
    (hlive : t.tableExists = true) :
    (∃ added, (ensure_table_and_columns t).columns = t.columns ++ added) ∧
    (ensure_table_and_columns t).rows.length = t.rows.length ∧
    (∀ i (h1 : i < t.rows.length)
        (h2 : i < (ensure_table_and_columns t).rows.length),
      ∃ padding, (ensure_table_and_columns t).rows[i] = t.rows[i] ++ padding ∧
        ∀ cell ∈ padding, cell = (none : Option String)) ∧
    ensure_table_and_columns (ensure_table_and_columns t) =
      ensure_table_and_columns t ∧
    ((∀ k ∈ schemaKeys, k ∈ t.columns) → ensure_table_and_columns t = t) := by
  have hunfold : ensure_table_and_columns t =
      { tableExists := true,
        columns := t.columns ++
          schemaKeys.filter (fun col => !(decide (col ∈ t.columns))),
        rows := t.rows.map (fun r => r ++
          (schemaKeys.filter (fun col => !(decide (col ∈ t.columns)))).map
            (fun _ => (none : Option String))) } := by
    simp [ensure_table_and_columns, hlive]
  refine ⟨⟨_, by rw [hunfold]⟩, by rw [hunfold]; simp, ?_, ?_, ?_⟩
  · intro i h1 h2
    refine ⟨(schemaKeys.filter (fun col => !(decide (col ∈ t.columns)))).map
      (fun _ => (none : Option String)), ?_, ?_⟩
    · simp only [hunfold]
      rw [List.getElem_map]
    · intro cell hcell
      obtain ⟨-, -, hc⟩ := List.mem_map.mp hcell
      exact hc.symm
  · have hsub : ∀ k ∈ schemaKeys, k ∈ (ensure_table_and_columns t).columns := by
      intro k hk
      rw [hunfold]
      by_cases hkc : k ∈ t.columns
      · exact List.mem_append_left _ hkc
      · exact List.mem_append_right _ (List.mem_filter.mpr ⟨hk, by simp [hkc]⟩)
    have hnil : schemaKeys.filter
        (fun col => !(decide (col ∈ (ensure_table_and_columns t).columns))) = [] := by
      rw [List.filter_eq_nil_iff]
      intro k hk
      simp [hsub k hk]
    have hlive2 : (ensure_table_and_columns t).tableExists = true := by
      rw [hunfold]
    show ensure_table_and_columns (ensure_table_and_columns t) =
      ensure_table_and_columns t
    rw [ensure_table_and_columns, if_pos hlive2, hnil]
    simp
    rw [← hlive2]
  · intro hall
    have hnil : schemaKeys.filter (fun col => !(decide (col ∈ t.columns))) = [] := by
      rw [List.filter_eq_nil_iff]
      intro k hk
      simp [hall k hk]
    rw [ensure_table_and_columns, if_pos hlive, hnil]
    simp [← hlive]

/-- Witness for C5 at a concrete live table. -/
theorem ensure_table_and_columns_spec_witness :
    tableSample.tableExists = true ∧
    (∃ added, (ensure_table_and_columns tableSample).columns =
      tableSample.columns ++ added) ∧
    ensure_table_and_columns (ensure_table_and_columns tableSample) =
      ensure_table_and_columns tableSample := by
  have h := ensure_table_and_columns_spec tableSample (by decide)
  exact ⟨by decide, h.1, h.2.2.2.1⟩

end StudentPortal

namespace StudentPortal

/-! ## Authentication flow (src/main2.py lines 84-95 and 250-299) -/

/-- Outcome reported by one submission of the login form. -/
inductive LoginResult where
  | captchaFailed
  | invalidCredentials
  | success
deriving DecidableEq, Repr

/-- The Streamlit session state driving the login flow (src/main2.py lines
84-95): the `logged_in` flag, the authenticated row, the failure counter
and the current captcha triple `(a, b, a + b)`. -/
structure AuthState where
  logged_in : Bool
  user_data : Option StudentRecord
  login_failed_count : Nat
  captcha : Nat × Nat × Nat
deriving DecidableEq, Repr

/-- The stored challenge built from two `random.randint(2, 12)` draws
(src/main2.py lines 93-95, 274-276, 288-290, 297-299). -/
def makeCaptcha (a b : Nat) : Nat × Nat × Nat := (a, b, a + b)

/-- One submission of the login form (src/main2.py lines 262-299). The
captcha answer arrives already parsed: `none` models an `int(user_ans)`
call that raised, which the `except` branch treats as a wrong answer. The
two fresh `random.randint(2, 12)` draws used by whichever regeneration
branch runs are the oracle inputs `freshA`, `freshB`. -/
def attempt_login (store : List StudentRecord) (st : AuthState)
    (uname pwd : String) (captchaAnswer : Option Int) (freshA freshB : Nat) :
    AuthState × LoginResult :=
  let captcha_ok : Bool :=
    match captchaAnswer with
    | some n => n == (st.captcha.2.2 : Int)
    | none => false
  if !captcha_ok then
    ({ st with login_failed_count := st.login_failed_count + 1,
               captcha := makeCaptcha freshA freshB },
     LoginResult.captchaFailed)
  else
    match findByCredentials store uname pwd with
    | some user =>
        ({ logged_in := true, user_data := some user, login_failed_count := 0,
           captcha := makeCaptcha freshA freshB },
         LoginResult.success)
    | none =>
        ({ st with login_failed_count := st.login_failed_count + 1,
                   captcha := makeCaptcha freshA freshB },
         LoginResult.invalidCredentials)

/-- A session state for witnesses: one prior failure, challenge `2 + 3`. -/
def authSample : AuthState :=
  { logged_in := false, user_data := none, login_failed_count := 1,
    captcha := (2, 3, 5) }

/-- **C6.** Whatever the outcome of a login attempt — wrong captcha, wrong
credentials, or success — the stored challenge afterwards is the one built
from the two fresh random draws of that attempt (never the stale one), and
the failure counter increments on either kind of failed attempt and resets
to zero exactly on success. -/
theorem attempt_login_spec (store : List StudentRecord) (st : AuthState)
    (uname pwd : String) (captchaAnswer : Option Int) (a b : Nat) :
    ((attempt_login store st uname pwd captchaAnswer a b).1.captcha =
      makeCaptcha a b) ∧
    makeCaptcha a b = (a, b, a + b) ∧
    ((attempt_login store st uname pwd captchaAnswer a b).2 =
        LoginResult.success →
      (attempt_login store st uname pwd captchaAnswer a b).1.login_failed_count
          = 0 ∧
      (attempt_login store st uname pwd captchaAnswer a b).1.logged_in = true) ∧
    ((attempt_login store st uname pwd captchaAnswer a b).2 ≠
        LoginResult.success →
      (attempt_login store st uname pwd captchaAnswer a b).1.login_failed_count
          = st.login_failed_count + 1) := by
  unfold attempt_login
  cases hca : (match captchaAnswer with
    | some n => n == (st.captcha.2.2 : Int)
    | none => false) with
  | false => simp [makeCaptcha]
  | true =>
      cases hf : findByCredentials store uname pwd with
      | none => simp [makeCaptcha]
      | some user => simp [makeCaptcha]

/-- Witness for C6: a wrong captcha answer at a concrete state increments
the counter and installs the challenge built from the fresh draws. -/
theorem attempt_login_spec_witness :
    (attempt_login [recAlice] authSample "alice" "bad" (some 4) 7 9).1.captcha
        = (7, 9, 16) ∧
    (attempt_login [recAlice] authSample "alice" "bad" (some 4) 7 9).2 ≠
        LoginResult.success ∧
    (attempt_login [recAlice] authSample "alice" "bad" (some 4) 7
        9).1.login_failed_count = authSample.login_failed_count + 1 := by
  have h := attempt_login_spec [recAlice] authSample "alice" "bad" (some 4) 7 9
  refine ⟨by rw [h.1]; decide, by decide, h.2.2.2 (by decide)⟩

end StudentPortal

namespace StudentPortal

/-! ## Bulk transfer (src/main2.py lines 142-176)

The CSV byte stream is embedded at the tabular level: a document is its
header row plus its list of data rows. Python's `csv` module writes and
re-parses exactly this cell structure for the string values involved. -/

/-- A CSV document: header row and data rows. -/
structure CsvFile where
  header : List String
  rows : List (List String)
deriving DecidableEq, Repr

/-- Code-point comparison of strings (what Python's `sorted` uses). -/
def charListLe : List Char → List Char → Bool
  | [], _ => true
  | _ :: _, [] => false
  | a :: as, b :: bs =>
    decide (a.toNat < b.toNat) ||
      (decide (a.toNat = b.toNat) && charListLe as bs)

/-- Boolean string comparison by code points. -/
def strLe (a b : String) : Bool := charListLe a.toList b.toList

/-- Stable insertion of a string into a sorted list. -/
def insertSorted (x : String) : List String → List String
  | [] => [x]
  | y :: ys => if strLe x y then x :: y :: ys else y :: insertSorted x ys

/-- Python's `sorted` on a list of strings. -/
def sortStrings (l : List String) : List String := l.foldr insertSorted []

/-- `csv.DictReader`'s cell lookup for one data row: the row mapping is
built by zipping the header with the row's cells (on duplicate header
names the later occurrence wins, as in `dict`); a key with no zipped cell
yields the empty string, merging `row.get(k, '')`'s default with the
`None` rest-value a short row stores (an SQL NULL, modelled as `""`). -/
def dictGet (header row : List String) (k : String) : String :=
  match (header.zip row).reverse.find? (fun p => p.1 == k) with
  | some p => p.2
  | none => ""

/-- The record one CSV data row denotes: descriptor-key lookups in schema
order (src/main2.py line 168:
`values = [row.get(k, '') for k in DESIRED_SCHEMA.keys()]`). -/
def rowToRecord (header row : List String) : StudentRecord :=
  { uname := dictGet header row "uname"
    pwd := dictGet header row "pwd"
    name := dictGet header row "name"
    father := dictGet header row "father"
    mother := dictGet header row "mother"
    gender := dictGet header row "gender"
    address := dictGet header row "address"
    city := dictGet header row "city"
    state := dictGet header row "state"
    phone := dictGet header row "phone"
    rrn := dictGet header row "rrn"
    enroll := dictGet header row "enroll"
    degree := dictGet header row "degree"
    branch := dictGet header row "branch"
    sem := dictGet header row "sem"
    scheme := dictGet header row "scheme"
    marks_10th := dictGet header row "marks_10th"
    marks_12th := dictGet header row "marks_12th"
    photo_path := dictGet header row "photo_path"
    sign_path := dictGet header row "sign_path" }

/-- A stored record's cells in schema order, as `SELECT *` returns them. -/
def recordToRow (r : StudentRecord) : List String :=
  [r.uname, r.pwd, r.name, r.father, r.mother, r.gender, r.address, r.city,
   r.state, r.phone, r.rrn, r.enroll, r.degree, r.branch, r.sem, r.scheme,
   r.marks_10th, r.marks_12th, r.photo_path, r.sign_path]

/-- `export_all_users_csv` (src/main2.py lines 142-152) on a store whose
live column list is the descriptor's keys — the state
`ensure_table_and_columns` establishes on a fresh database: the header row
is the column list and there is one data row per stored record, in
`SELECT *` (storage) order. -/
def export_all_users_csv (store : List StudentRecord) : CsvFile :=
  { header := schemaKeys, rows := store.map recordToRow }

/-- SQLite's message for the duplicate-primary-key `IntegrityError` on this
table. -/
def dupKeyMsg : String := "UNIQUE constraint failed: students.uname"

/-- The per-row error entry `f"Row {i}: {e}"` (src/main2.py line 172). -/
def rowError (i : Nat) : String := "Row " ++ toString i ++ ": " ++ dupKeyMsg

/-- The schema-mismatch message (src/main2.py line 163):
`"CSV missing required columns. Required columns: " + ",".join(sorted(required_cols))`. -/
def missingColsMsg : String :=
  "CSV missing required columns. Required columns: " ++
    String.intercalate "," (sortStrings schemaKeys)

/-- The per-row loop of `import_users_from_csv` (src/main2.py lines
166-174): thread the table through the row-by-row INSERTs, counting
imported rows and collecting one error entry per failing row; `i` is the
physical row number (`enumerate(reader, start=2)`). Returns
`(imported, errors, finalTable)`. -/
def importRows (header : List String) :
    List StudentRecord → Nat → List (List String) →
      Nat × List String × List StudentRecord
  | store, _, [] => (0, [], store)
  | store, i, row :: rest =>
    match insertRecord store (rowToRecord header row) with
    | Except.ok store2 =>
        let out := importRows header store2 (i + 1) rest
        (out.1 + 1, out.2.1, out.2.2)
    | Except.error _ =>
        let out := importRows header store (i + 1) rest
        (out.1, rowError i :: out.2.1, out.2.2)

/-- `import_users_from_csv` (src/main2.py lines 155-176) at the tabular
level: reject the whole batch with one message when the header's column
set misses any required column (table untouched); otherwise insert row by
row. Returns `((imported, errors), finalTable)`. -/
def import_users_from_csv (store : List StudentRecord) (file : CsvFile) :
    (Nat × List String) × List StudentRecord :=
  if schemaKeys.all (fun k => decide (k ∈ file.header)) then
    let out := importRows file.header store 2 file.rows
    ((out.1, out.2.1), out.2.2)
  else
    ((0, [missingColsMsg]), store)

/-- Sanity: the sorted required-column list in the mismatch message is the
alphabetical ordering of the 20 schema keys. -/
lemma sortStrings_schemaKeys :
    sortStrings schemaKeys =
      ["address", "branch", "city", "degree", "enroll", "father", "gender",
       "marks_10th", "marks_12th", "mother", "name", "phone", "photo_path",
       "pwd", "rrn", "scheme", "sem", "sign_path", "state", "uname"] := by
  decide

/-- A successful insert appends exactly the new record. -/
lemma insertRecord_ok_eq {store : List StudentRecord} {r : StudentRecord}
    {store2 : List StudentRecord} (h : insertRecord store r = Except.ok store2) :
    store2 = store ++ [r] := by
  unfold insertRecord at h
  split at h
  · exact absurd h (by simp)
  · simpa using h.symm

/-- Row-loop invariants: the final table is the initial one plus the
imported records, every row either imports or contributes one error, and
every error entry is `rowError n` for a physical row number in range. -/
lemma importRows_spec (header : List String) :
    ∀ (rows : List (List String)) (store : List StudentRecord) (i : Nat),
      (∃ added, (importRows header store i rows).2.2 = store ++ added ∧
        added.length = (importRows header store i rows).1) ∧
      (importRows header store i rows).1 +
        (importRows header store i rows).2.1.length = rows.length ∧
      (∀ e ∈ (importRows header store i rows).2.1,
        ∃ n, i ≤ n ∧ n < i + rows.length ∧ e = rowError n) := by
  intro rows
  induction rows with
  | nil =>
      intro store i
      refine ⟨⟨[], by simp [importRows], by simp [importRows]⟩, ?_, ?_⟩ <;>
        simp [importRows]
  | cons row rest ih =>
      intro store i
      cases hins : insertRecord store (rowToRecord header row) with
      | ok store2 =>
          obtain ⟨⟨added, hadd, hlen⟩, hcount, herr⟩ := ih store2 (i + 1)
          have hres : importRows header store i (row :: rest) =
              ((importRows header store2 (i + 1) rest).1 + 1,
               (importRows header store2 (i + 1) rest).2.1,
               (importRows header store2 (i + 1) rest).2.2) := by
            simp [importRows, hins]
          refine ⟨⟨rowToRecord header row :: added, ?_, ?_⟩, ?_, ?_⟩
          · rw [hres]
            simp only []
            rw [hadd, insertRecord_ok_eq hins]
            simp
          · rw [hres]
            simpa using hlen
          · rw [hres]
            simp only [List.length_cons]
            omega
          · rw [hres]
            intro e he
            obtain ⟨n, hn1, hn2, hn3⟩ := herr e he
            exact ⟨n, by omega, by simp [List.length_cons]; omega, hn3⟩
      | error err =>
          obtain ⟨⟨added, hadd, hlen⟩, hcount, herr⟩ := ih store (i + 1)
          have hres : importRows header store i (row :: rest) =
              ((importRows header store (i + 1) rest).1,
               rowError i :: (importRows header store (i + 1) rest).2.1,
               (importRows header store (i + 1) rest).2.2) := by
            simp [importRows, hins]
          refine ⟨⟨added, ?_, ?_⟩, ?_, ?_⟩
          · rw [hres]
            exact hadd
          · rw [hres]
            exact hlen
          · rw [hres]
            simp only [List.length_cons]
            omega
          · rw [hres]
            intro e he
            rcases List.mem_cons.mp he with he | he
            · exact ⟨i, Nat.le_refl i, by simp only [List.length_cons]; omega, he⟩
            · obtain ⟨n, hn1, hn2, hn3⟩ := herr e he
              exact ⟨n, by omega, by simp only [List.length_cons]; omega, hn3⟩

/-- A CSV document whose header misses most required columns, for the C3
witness. -/
def fileBad : CsvFile := { header := ["uname", "pwd"], rows := [["x", "y"]] }

/-- **C3.** When the header's column set is not a superset of the
descriptor's keys, the import returns zero imported rows and exactly one
error (the message naming the required columns, sorted) and the table is
untouched. With a valid header, every data row either imports or
contributes exactly one error of the form `"Row <n>: <message>"` with `n`
the physical row number (starting at 2), the final table is the initial
table plus exactly the `importedCount` successfully inserted records
(prior successes are kept when later rows fail), and the returned pair is
`(importedCount, errorList)`. -/
theorem import_users_from_csv_spec (store : List StudentRecord) (file : CsvFile) :
    (¬ (∀ k ∈ schemaKeys, k ∈ file.header) →
      import_users_from_csv store file = ((0, [missingColsMsg]), store)) ∧
    ((∀ k ∈ schemaKeys, k ∈ file.header) →
      (import_users_from_csv store file).1.1 +
        (import_users_from_csv store file).1.2.length = file.rows.length ∧
      (∃ added, (import_users_from_csv store file).2 = store ++ added ∧
        added.length = (import_users_from_csv store file).1.1) ∧
      (∀ e ∈ (import_users_from_csv store file).1.2,
        ∃ n, 2 ≤ n ∧ n ≤ file.rows.length + 1 ∧ e = rowError n)) := by
  have hb : (schemaKeys.all (fun k => decide (k ∈ file.header)) = true) ↔
      (∀ k ∈ schemaKeys, k ∈ file.header) := by
    simp [List.all_eq_true]
  constructor
  · intro hno
    have hf : schemaKeys.all (fun k => decide (k ∈ file.header)) = false := by
      rcases Bool.eq_false_or_eq_true
        (schemaKeys.all (fun k => decide (k ∈ file.header))) with h | h
      · exact absurd (hb.mp h) hno
      · exact h
    simp [import_users_from_csv, hf]
  · intro hyes
    have hbt := hb.mpr hyes
    have heq : import_users_from_csv store file =
        (((importRows file.header store 2 file.rows).1,
          (importRows file.header store 2 file.rows).2.1),
         (importRows file.header store 2 file.rows).2.2) := by
      simp [import_users_from_csv, hbt]
    obtain ⟨⟨added, hadd, hlen⟩, hcount, herr⟩ :=
      importRows_spec file.header file.rows store 2
    rw [heq]
    refine ⟨hcount, ⟨added, hadd, hlen⟩, ?_⟩
    intro e he
    obtain ⟨n, hn1, hn2, hn3⟩ := herr e he
    exact ⟨n, hn1, by omega, hn3⟩

/-- Witness for C3: a header missing required columns yields zero imports,
the fixed message and an unchanged table. -/
theorem import_users_from_csv_spec_witness :
    (¬ ∀ k ∈ schemaKeys, k ∈ fileBad.header) ∧
    import_users_from_csv [recAlice] fileBad = ((0, [missingColsMsg]), [recAlice]) := by
  have h := import_users_from_csv_spec [recAlice] fileBad
  exact ⟨by decide, h.1 (by decide)⟩

/-- Deserialising a record's exported row through the descriptor-key
lookups reproduces the record exactly. -/
lemma rowToRecord_recordToRow (r : StudentRecord) :
    rowToRecord schemaKeys (recordToRow r) = r := rfl

/-- When every row's record has a username fresh for the table so far and
the rows' usernames are pairwise distinct, every row imports and the final
table appends the records in row order. -/
lemma importRows_all_fresh (header : List String) :
    ∀ (rows : List (List String)) (store : List StudentRecord) (i : Nat),
      (∀ r1 ∈ rows.map (rowToRecord header), ∀ s ∈ store, s.uname ≠ r1.uname) →
      (rows.map (rowToRecord header)).Pairwise (fun a b => a.uname ≠ b.uname) →
      importRows header store i rows =
        (rows.length, [], store ++ rows.map (rowToRecord header)) := by
  intro rows
  induction rows with
  | nil =>
      intro store i _ _
      simp [importRows]
  | cons row rest ih =>
      intro store i hfresh hpair
      have hrmem : rowToRecord header row ∈ (row :: rest).map (rowToRecord header) := by
        simp
      have hany : store.any (fun s => s.uname == (rowToRecord header row).uname)
          = false := by
        simp only [List.any_eq_false, beq_iff_eq]
        intro s hs
        exact hfresh (rowToRecord header row) hrmem s hs
      have hins : insertRecord store (rowToRecord header row) =
          Except.ok (store ++ [rowToRecord header row]) := by
        simp [insertRecord, hany]
      have hpair2 : ((rowToRecord header row) ::
          rest.map (rowToRecord header)).Pairwise
            (fun a b => a.uname ≠ b.uname) := by
        simpa using hpair
      have hpc := List.pairwise_cons.mp hpair2
      have hfresh2 : ∀ r1 ∈ rest.map (rowToRecord header),
          ∀ s ∈ store ++ [rowToRecord header row], s.uname ≠ r1.uname := by
        intro r1 hr1 s hs
        rcases List.mem_append.mp hs with hs | hs
        · exact hfresh r1 (List.mem_cons_of_mem _ hr1) s hs
        · have : s = rowToRecord header row := by simpa using hs
          rw [this]
          exact hpc.1 r1 hr1
      have hrec := ih (store ++ [rowToRecord header row]) (i + 1) hfresh2 hpc.2
      simp [importRows, hins, hrec]

/-- **C4.** Exporting any store whose usernames are pairwise distinct and
importing the result into a fresh empty store imports every row, reports
no errors, and reproduces the original records field for field, in the
original order. -/
theorem export_then_import_roundtrip (store : List StudentRecord)
    (hdist : store.Pairwise (fun a b => a.uname ≠ b.uname)) :
    import_users_from_csv [] (export_all_users_csv store) =
      ((store.length, []), store) := by
  have hmap : (store.map recordToRow).map (rowToRecord schemaKeys) = store := by
    rw [List.map_map]
    have hcong : ∀ s ∈ store, (rowToRecord schemaKeys ∘ recordToRow) s = s :=
      fun s _ => rowToRecord_recordToRow s
    rw [List.map_congr_left hcong]
    exact List.map_id store
  have hfresh : ∀ r1 ∈ (store.map recordToRow).map (rowToRecord schemaKeys),
      ∀ s ∈ ([] : List StudentRecord), s.uname ≠ r1.uname := by
    simp
  have hpair : ((store.map recordToRow).map (rowToRecord schemaKeys)).Pairwise
      (fun a b => a.uname ≠ b.uname) := by
    rw [hmap]
    exact hdist
  have him := importRows_all_fresh schemaKeys (store.map recordToRow) [] 2
    hfresh hpair
  rw [hmap] at him
  have hbt : schemaKeys.all
      (fun k => decide (k ∈ (export_all_users_csv store).header)) = true := by
    simp [export_all_users_csv, List.all_eq_true]
  have hrows : (export_all_users_csv store).rows = store.map recordToRow := rfl
  have hhead : (export_all_users_csv store).header = schemaKeys := rfl
  have hbt2 : (schemaKeys.all fun k => decide (k ∈ schemaKeys)) = true := by
    simp [List.all_eq_true]
  simp only [import_users_from_csv, hrows, hhead, him,
    List.length_map, List.nil_append]
  rw [if_pos hbt2]

/-- Witness for C4 at a concrete two-record store. -/
theorem export_then_import_roundtrip_witness :
    ([recAlice, recBob].Pairwise (fun a b => a.uname ≠ b.uname)) ∧
    import_users_from_csv [] (export_all_users_csv [recAlice, recBob]) =
      ((2, []), [recAlice, recBob]) := by
  have hp : [recAlice, recBob].Pairwise (fun a b => a.uname ≠ b.uname) := by
    simp [List.pairwise_cons]
    decide
  exact ⟨hp, export_then_import_roundtrip [recAlice, recBob] hp⟩

end StudentPortal

namespace StudentPortal

/-! ## Report composer: the photo/signature boxes (src/main2.py lines 426-452) -/

/-- The drawing command `draw_image_in_box` issues into one box. -/
inductive DrawCmd where
  | image (x y w h : ℚ)
  | text (x y : ℚ) (s : String)
deriving DecidableEq, Repr

/-- `draw_image_in_box` (src/main2.py lines 426-448), Python floats
embedded as exact rationals. `img` is `some (im_w, im_h)` when the image
file is present and decodable with those pixel dimensions, and `none` when
the path is absent/missing or opening the image raised — the fall-through
that draws the fixed alt text at `(box_x + 6, box_y_top - box_h / 2)`.
A decoded image with a zero dimension would raise `ZeroDivisionError`
inside the `try`; the same `except` path then draws the alt text. -/
def draw_image_in_box (img : Option (Nat × Nat))
    (box_x box_y_top box_w box_h : ℚ) (alt_text : String) : DrawCmd :=
  match img with
  | some (im_w, im_h) =>
    if im_w = 0 ∨ im_h = 0 then
      DrawCmd.text (box_x + 6) (box_y_top - box_h / 2) alt_text
    else
      let max_w : ℚ := box_w - 8
      let max_h : ℚ := box_h - 8
      let scale : ℚ := min (min (max_w / im_w) (max_h / im_h)) 1
      let disp_w : ℚ := im_w * scale
      let disp_h : ℚ := im_h * scale
      DrawCmd.image (box_x + (box_w - disp_w) / 2)
        (box_y_top - box_h + (box_h - disp_h) / 2) disp_w disp_h
  | none => DrawCmd.text (box_x + 6) (box_y_top - box_h / 2) alt_text

/-- **C9.** For a present, decodable image both displayed dimensions are
the pixel dimensions times one common factor (uniform scaling), the factor
is positive and never exceeds 1 (no upscaling), the displayed size fits in
the box interior minus the fixed padding of 8, and the image is centred:
the left and right margins inside the box agree, as do the bottom and top
margins. For a missing or undecodable image the fixed alt-text string is
drawn inside the box instead. -/
theorem draw_image_in_box_spec (im_w im_h : Nat)
    (box_x box_y_top box_w box_h : ℚ) (alt_text : String)
    (hw : 0 < im_w) (hh : 0 < im_h) (hbw : 8 < box_w) (hbh : 8 < box_h) :
    (∃ sf : ℚ, 0 < sf ∧ sf ≤ 1 ∧
      draw_image_in_box (some (im_w, im_h)) box_x box_y_top box_w box_h alt_text =
        DrawCmd.image (box_x + (box_w - im_w * sf) / 2)
          (box_y_top - box_h + (box_h - im_h * sf) / 2)
          (im_w * sf) (im_h * sf) ∧
      im_w * sf ≤ box_w - 8 ∧ im_h * sf ≤ box_h - 8 ∧
      (box_x + (box_w - im_w * sf) / 2) - box_x =
        (box_x + box_w) - ((box_x + (box_w - im_w * sf) / 2) + im_w * sf) ∧
      (box_y_top - box_h + (box_h - im_h * sf) / 2) - (box_y_top - box_h) =
        box_y_top - ((box_y_top - box_h + (box_h - im_h * sf) / 2) + im_h * sf)) ∧
    draw_image_in_box none box_x box_y_top box_w box_h alt_text =
      DrawCmd.text (box_x + 6) (box_y_top - box_h / 2) alt_text := by
  have hwq : (0 : ℚ) < im_w := by exact_mod_cast hw
  have hhq : (0 : ℚ) < im_h := by exact_mod_cast hh
  refine ⟨⟨min (min ((box_w - 8) / im_w) ((box_h - 8) / im_h)) 1, ?_, ?_, ?_, ?_, ?_, ?_, ?_⟩, rfl⟩
  · refine lt_min (lt_min ?_ ?_) one_pos
    · exact div_pos (by linarith) hwq
    · exact div_pos (by linarith) hhq
  · exact min_le_right _ _
  · have hnz : ¬(im_w = 0 ∨ im_h = 0) := by omega
    simp only [draw_image_in_box, if_neg hnz]
  · have h1 : min (min ((box_w - 8) / im_w) ((box_h - 8) / im_h)) 1 ≤
        (box_w - 8) / im_w :=
      le_trans (min_le_left _ _) (min_le_left _ _)
    calc (im_w : ℚ) * min (min ((box_w - 8) / im_w) ((box_h - 8) / im_h)) 1
        ≤ im_w * ((box_w - 8) / im_w) :=
          mul_le_mul_of_nonneg_left h1 (le_of_lt hwq)
      _ = box_w - 8 := mul_div_cancel₀ _ (ne_of_gt hwq)
  · have h1 : min (min ((box_w - 8) / im_w) ((box_h - 8) / im_h)) 1 ≤
        (box_h - 8) / im_h :=
      le_trans (min_le_left _ _) (min_le_right _ _)
    calc (im_h : ℚ) * min (min ((box_w - 8) / im_w) ((box_h - 8) / im_h)) 1
        ≤ im_h * ((box_h - 8) / im_h) :=
          mul_le_mul_of_nonneg_left h1 (le_of_lt hhq)
      _ = box_h - 8 := mul_div_cancel₀ _ (ne_of_gt hhq)
  · ring
  · ring

/-- Witness for C9: a 400×300 image in the 220×140 photo box at
`(40, 700)`. -/
theorem draw_image_in_box_spec_witness :
    (0 < 400 ∧ 0 < 300 ∧ (8 : ℚ) < 220 ∧ (8 : ℚ) < 140) ∧
    (∃ sf : ℚ, 0 < sf ∧ sf ≤ 1 ∧
      draw_image_in_box (some (400, 300)) 40 700 220 140 "Photo not found" =
        DrawCmd.image (40 + (220 - 400 * sf) / 2)
          (700 - 140 + (140 - 300 * sf) / 2) (400 * sf) (300 * sf) ∧
      400 * sf ≤ 220 - 8 ∧ 300 * sf ≤ 140 - 8 ∧
      (40 + (220 - 400 * sf) / 2) - 40 =
        (40 + 220) - ((40 + (220 - 400 * sf) / 2) + 400 * sf) ∧
      (700 - 140 + (140 - 300 * sf) / 2) - (700 - 140) =
        700 - ((700 - 140 + (140 - 300 * sf) / 2) + 300 * sf)) := by
  have h := draw_image_in_box_spec 400 300 40 700 220 140 "Photo not found"
    (by norm_num) (by norm_num) (by norm_num) (by norm_num)
  exact ⟨⟨by norm_num, by norm_num, by norm_num, by norm_num⟩, h.1⟩

end StudentPortal
